import Mathlib

/-!
# Verification of `src/main/ktnumpy/jni/source/java_classes/Short.c`

The source file defines one function, `java_lang_Short_new`, which boxes a
native 16-bit integer into a `java.lang.Short` object via JNI, caching the
resolved constructor method identifier in the process-wide static variable
`newShortID` (sentinel `0` = uninitialized).

Shallow embedding choices:
* A JNI method identifier (`jmethodID`) is a `Nat`; `0` plays the role of the
  `NULL` pointer (resolution failure / uninitialized cache), mirroring the C
  code's use of `0` as the sentinel and `NULL` as the failure value.
* An object reference (`jobject`) is `Option Nat`: `none` is JNI `NULL`, and
  `some a` is a reference to the heap cell at address `a`.
* The JNI environment handle is modelled by the capabilities the fragment
  consumes from it (spec §6): constructor-identifier lookup and generic
  object construction.  The managed runtime's state (heap, pending
  exception indicator, and a resolution-count instrumentation used by the
  spec's testable properties) is threaded explicitly as `RState`.
* The C translation unit's process-wide globals are threaded as `BState`:
  the cached `newShortID`, plus an abstract `other` component standing for
  every other process-wide variable (used to state the frame property).
-/

/-- The JNI environment handle, modelled by the primitives the fragment
consumes from it: `GetMethodID` lookup (result `0` models JNI `NULL`, i.e.
class or constructor not found) and whether generic object construction
(`NewObject`) succeeds. -/
structure JNIEnv where
  getMethodID : String → String → String → Nat
  constructOk : Bool

/-- The managed runtime's observable state: the heap of boxed short values
(the address of a cell is its index; allocation appends), the pending
exception/error indicator, and an instrumentation counter of how many
constructor-identifier lookups have been performed (spec §8's
"resolution-count instrumentation double"). -/
structure RState where
  heap : List Int
  pending : Bool
  resolutions : Nat

/-- The C translation unit's process-wide mutable state: the static cache
`static jmethodID newShortID = 0;` (`0` = uninitialized sentinel), together
with an abstract `other` component standing for all other process-wide
state (used only to state the frame property). -/
structure BState where
  newShortID : Nat
  other : Nat

/-- The class descriptor of the boxed type (the global `SHORT_TYPE` class
reference used by the C code). -/
def SHORT_TYPE : String := "java/lang/Short"

/-- JNI primitive `(*env)->GetMethodID`: resolves a constructor identifier
from a class descriptor, a method name and a signature.  On failure it
returns `0` (JNI `NULL`) and leaves the runtime's pending exception
indicator set (spec §6: "an implicit error/exception channel that failed
lookups populate").  Every call bumps the resolution-count
instrumentation. -/
def GetMethodID (env : JNIEnv) (cls nm sig : String) (r : RState) : Nat × RState :=
  let mid := env.getMethodID cls nm sig
  (mid, { r with pending := r.pending || (mid == 0), resolutions := r.resolutions + 1 })

/-- JNI primitive `(*env)->NewObject`: constructs a boxed object holding the
supplied value, allocating a fresh heap cell whose address is the current
heap length.  If construction fails (e.g. out of memory), it returns JNI
`NULL` with the runtime's pending error indicator set and allocates
nothing. -/
def NewObject (env : JNIEnv) (cls : String) (mid : Nat) (s : Int) (r : RState) :
    Option Nat × RState :=
  if env.constructOk then
    (some r.heap.length, { r with heap := r.heap ++ [s] })
  else
    (none, { r with pending := true })

/-- Modelled from the spec: the `JNI_METHOD` caching macro is defined in
`ktnumpy_includes.h`, which is not among the provided sources.  Per spec
§4.1 and §3: lazily resolve and cache the constructor identifier if the
cache is still the uninitialized sentinel, storing only the lookup's result
(so a failed lookup leaves the sentinel in place); if the cache is already
non-empty, reuse it without re-querying the runtime.  Returns (success
flag, new cache value, runtime state). -/
def JNI_METHOD (cached : Nat) (env : JNIEnv) (cls nm sig : String) (r : RState) :
    Bool × Nat × RState :=
  if cached == 0 then
    let p := GetMethodID env cls nm sig r
    (p.1 != 0, p.1, p.2)
  else
    (true, cached, r)

/-- Embedding of `java_lang_Short_new` (Short.c, lines 21–28):

```
jobject java_lang_Short_new (JNIEnv *env, jshort s)
{
  if (!JNI_METHOD(newShortID, env, SHORT_TYPE, "<init>", "(S)V"))
    {
      return NULL;
    }
  return (*env)->NewObject (env, SHORT_TYPE, newShortID, s);
}
```

Returns the object reference together with the updated process-wide state
and runtime state. -/
def java_lang_Short_new (env : JNIEnv) (s : Int) (b : BState) (r : RState) :
    Option Nat × BState × RState :=
  let q := JNI_METHOD b.newShortID env SHORT_TYPE "<init>" "(S)V" r
  let b1 : BState := { b with newShortID := q.2.1 }
  if q.1 then
    let p := NewObject env SHORT_TYPE q.2.1 s q.2.2
    (p.1, b1, p.2)
  else
    (none, b1, q.2.2)

/-- Unboxing: the value held by the boxed object at heap address `a`. -/
def shortValue (r : RState) (a : Nat) : Option Int :=
  r.heap[a]?

/-- A correctly configured runtime environment (spec §4.1): the boxed
type's `(S)V` constructor resolves, and object construction succeeds. -/
def wellConfigured (env : JNIEnv) : Prop :=
  env.getMethodID SHORT_TYPE "<init>" "(S)V" ≠ 0 ∧ env.constructOk = true

/-- Resolution succeeds for this call: either the cache is already
populated, or the environment can resolve the constructor. -/
def resolves (b : BState) (env : JNIEnv) : Prop :=
  b.newShortID ≠ 0 ∨ env.getMethodID SHORT_TYPE "<init>" "(S)V" ≠ 0

/-- Two consecutive calls of the bridge with the same environment,
threading the process-wide and runtime state from the first call into the
second. -/
def callTwice (env : JNIEnv) (v1 v2 : Int) (b : BState) (r : RState) :
    (Option Nat × BState × RState) × (Option Nat × BState × RState) :=
  let o1 := java_lang_Short_new env v1 b r
  (o1, java_lang_Short_new env v2 o1.2.1 o1.2.2)

/-- A concrete well-configured environment, for witnesses. -/
def testEnv : JNIEnv :=
  { getMethodID := fun _ _ _ => 1, constructOk := true }

/-- A concrete environment in which constructor resolution fails. -/
def failEnv : JNIEnv :=
  { getMethodID := fun _ _ _ => 0, constructOk := true }

/-- A concrete environment in which resolution succeeds but object
construction fails. -/
def oomEnv : JNIEnv :=
  { getMethodID := fun _ _ _ => 1, constructOk := false }

/-- A second well-configured environment, distinct from `testEnv` but
answering the constructor-lookup query identically, for the frame
witness. -/
def altEnv : JNIEnv :=
  { getMethodID := fun _ _ sig => if sig = "(S)V" then 1 else 2, constructOk := true }

/-- Process-wide state at process start: cache uninitialized. -/
def bInit : BState := { newShortID := 0, other := 0 }

/-- Process-wide state after a successful first resolution: cache
populated. -/
def bCached : BState := { newShortID := 7, other := 3 }

/-- Runtime state at process start: empty heap, no pending error, no
resolutions performed. -/
def rInit : RState := { heap := [], pending := false, resolutions := 0 }

section Helpers

/-- On resolution failure (cache empty and lookup fails), the bridge
returns `NULL`, leaves the cache at the sentinel, sets the pending error
indicator and allocates nothing. -/
theorem short_new_fail_eq (env : JNIEnv) (s : Int) (b : BState) (r : RState)
    (hb : b.newShortID = 0) (he : env.getMethodID SHORT_TYPE "<init>" "(S)V" = 0) :
    java_lang_Short_new env s b r =
      (none, { newShortID := 0, other := b.other },
        { r with pending := true, resolutions := r.resolutions + 1 }) := by
  simp [java_lang_Short_new, JNI_METHOD, GetMethodID, hb, he]

/-- On resolution success, the bridge returns exactly the result of
`NewObject`, with the successfully resolved identifier stored in the
cache. -/
theorem short_new_success_eq (env : JNIEnv) (s : Int) (b : BState) (r : RState)
    (h : resolves b env) :
    ∃ mid r1, mid ≠ 0 ∧ r1.heap = r.heap ∧ r1.pending = r.pending ∧
      JNI_METHOD b.newShortID env SHORT_TYPE "<init>" "(S)V" r = (true, mid, r1) ∧
      java_lang_Short_new env s b r =
        ((NewObject env SHORT_TYPE mid s r1).1, { newShortID := mid, other := b.other },
          (NewObject env SHORT_TYPE mid s r1).2) := by
  by_cases hb : b.newShortID = 0
  · rcases h with h | h
    · exact absurd hb h
    · refine ⟨env.getMethodID SHORT_TYPE "<init>" "(S)V",
        { r with
          pending := r.pending || (env.getMethodID SHORT_TYPE "<init>" "(S)V" == 0),
          resolutions := r.resolutions + 1 }, h, rfl, by simp [h], ?_, ?_⟩
      · simp [JNI_METHOD, GetMethodID, hb, h]
      · simp [java_lang_Short_new, JNI_METHOD, GetMethodID, hb, h]
  · refine ⟨b.newShortID, r, hb, rfl, rfl, ?_, ?_⟩
    · simp [JNI_METHOD, hb]
    · simp [java_lang_Short_new, JNI_METHOD, hb]

/-- With a correctly configured environment, a call returns the reference
to a fresh heap cell (address = current heap length) and the final heap is
the old heap with the boxed value appended. -/
theorem short_new_wc (env : JNIEnv) (s : Int) (b : BState) (r : RState)
    (hw : wellConfigured env) :
    (java_lang_Short_new env s b r).1 = some r.heap.length ∧
      (java_lang_Short_new env s b r).2.2.heap = r.heap ++ [s] := by
  obtain ⟨mid, r1, hmid, hheap, hpend, hJ, hEq⟩ :=
    short_new_success_eq env s b r (Or.inr hw.1)
  rw [hEq]
  simp [NewObject, hw.2, hheap]

/-- Every call leaves the abstract "all other process-wide state"
component unchanged: the only global the bridge writes is `newShortID`. -/
theorem short_new_other (env : JNIEnv) (s : Int) (b : BState) (r : RState) :
    (java_lang_Short_new env s b r).2.1.other = b.other := by
  by_cases hb : b.newShortID = 0 <;>
    by_cases he : env.getMethodID SHORT_TYPE "<init>" "(S)V" = 0 <;>
      by_cases hc : env.constructOk <;>
        simp [java_lang_Short_new, JNI_METHOD, GetMethodID, NewObject, hb, he, hc]

end Helpers

/-- C1: For every representable 16-bit signed integer `v`, calling the
bridge (`java_lang_Short_new`) with a correctly configured runtime
environment returns a non-absent (non-null) object reference whose
unboxed value equals `v`. -/
theorem short_new_boxes_value (env : JNIEnv) (v : Int) (b : BState) (r : RState)
    (hw : wellConfigured env) (hlo : -32768 ≤ v) (hhi : v ≤ 32767) :
    ∃ a, (java_lang_Short_new env v b r).1 = some a ∧
      shortValue (java_lang_Short_new env v b r).2.2 a = some v := by
  obtain ⟨h1, h2⟩ := short_new_wc env v b r hw
  refine ⟨r.heap.length, h1, ?_⟩
  simp [shortValue, h2]

/-- Witness for C1 at `v = 5` on a concrete well-configured environment. -/
theorem short_new_boxes_value_witness :
    wellConfigured testEnv ∧ -32768 ≤ (5 : Int) ∧ (5 : Int) ≤ 32767 ∧
      ∃ a, (java_lang_Short_new testEnv 5 bInit rInit).1 = some a ∧
        shortValue (java_lang_Short_new testEnv 5 bInit rInit).2.2 a = some 5 :=
  ⟨⟨by decide, by decide⟩, by decide, by decide,
    short_new_boxes_value testEnv 5 bInit rInit ⟨by decide, by decide⟩
      (by decide) (by decide)⟩

/-- C2: If resolution of the boxed type's constructor identifier fails
(class or constructor not found), the bridge returns the absence value
(`NULL`) immediately and performs no object allocation. -/
theorem short_new_resolution_failure (env : JNIEnv) (v : Int) (b : BState) (r : RState)
    (hb : b.newShortID = 0) (he : env.getMethodID SHORT_TYPE "<init>" "(S)V" = 0) :
    (java_lang_Short_new env v b r).1 = none ∧
      (java_lang_Short_new env v b r).2.2.heap = r.heap := by
  rw [short_new_fail_eq env v b r hb he]
  exact ⟨rfl, rfl⟩

/-- Witness for C2 on a concrete environment whose lookup fails. -/
theorem short_new_resolution_failure_witness :
    bInit.newShortID = 0 ∧ failEnv.getMethodID SHORT_TYPE "<init>" "(S)V" = 0 ∧
      (java_lang_Short_new failEnv 5 bInit rInit).1 = none ∧
      (java_lang_Short_new failEnv 5 bInit rInit).2.2.heap = rInit.heap :=
  ⟨rfl, rfl, short_new_resolution_failure failEnv 5 bInit rInit rfl rfl⟩

/-- C3: Once the cached identifier (`newShortID`) is non-empty, no call of
the bridge re-invokes class/constructor lookup (the resolution count is
unchanged) and the call reuses the cached value. -/
theorem short_new_cache_reused (env : JNIEnv) (v : Int) (b : BState) (r : RState)
    (hb : b.newShortID ≠ 0) :
    (java_lang_Short_new env v b r).2.2.resolutions = r.resolutions ∧
      (java_lang_Short_new env v b r).2.1.newShortID = b.newShortID := by
  by_cases hc : env.constructOk <;>
    simp [java_lang_Short_new, JNI_METHOD, NewObject, hb, hc]

/-- Witness for C3 on a concrete state with a populated cache. -/
theorem short_new_cache_reused_witness :
    bCached.newShortID ≠ 0 ∧
      (java_lang_Short_new testEnv 5 bCached rInit).2.2.resolutions = rInit.resolutions ∧
      (java_lang_Short_new testEnv 5 bCached rInit).2.1.newShortID = bCached.newShortID :=
  ⟨by decide, short_new_cache_reused testEnv 5 bCached rInit (by decide)⟩

/-- C4: The bridge never clears the runtime's pending exception/error
indicator, and whenever it returns the absence value the indicator is left
set for the caller to observe. -/
theorem short_new_error_left_set (env : JNIEnv) (v : Int) (b : BState) (r : RState)
    (h : r.pending = true ∨ (java_lang_Short_new env v b r).1 = none) :
    (java_lang_Short_new env v b r).2.2.pending = true := by
  by_cases hb : b.newShortID = 0 <;>
    by_cases he : env.getMethodID SHORT_TYPE "<init>" "(S)V" = 0 <;>
      by_cases hc : env.constructOk <;>
        rcases h with h | h <;>
          simp_all [java_lang_Short_new, JNI_METHOD, GetMethodID, NewObject]

/-- Witness for C4: a failed call leaves the error indicator set. -/
theorem short_new_error_left_set_witness :
    (rInit.pending = true ∨ (java_lang_Short_new failEnv 5 bInit rInit).1 = none) ∧
      (java_lang_Short_new failEnv 5 bInit rInit).2.2.pending = true :=
  ⟨Or.inr rfl, short_new_error_left_set failEnv 5 bInit rInit (Or.inr rfl)⟩

/-- C5: Calling the bridge twice with the same environment and different
values `v1 ≠ v2` returns two distinct (non-aliased) object references
whose unboxed values equal `v1` and `v2` respectively. -/
theorem short_new_distinct_refs (env : JNIEnv) (v1 v2 : Int) (b : BState) (r : RState)
    (hw : wellConfigured env) (hne : v1 ≠ v2) :
    ∃ a1 a2, (callTwice env v1 v2 b r).1.1 = some a1 ∧
      (callTwice env v1 v2 b r).2.1 = some a2 ∧ a1 ≠ a2 ∧
      shortValue (callTwice env v1 v2 b r).2.2.2 a1 = some v1 ∧
      shortValue (callTwice env v1 v2 b r).2.2.2 a2 = some v2 := by
  obtain ⟨h1, h2⟩ := short_new_wc env v1 b r hw
  obtain ⟨h3, h4⟩ :=
    short_new_wc env v2 (java_lang_Short_new env v1 b r).2.1
      (java_lang_Short_new env v1 b r).2.2 hw
  refine ⟨r.heap.length, r.heap.length + 1, h1, ?_, by omega, ?_, ?_⟩
  · rw [callTwice]
    rw [h3, h2]
    simp
  · rw [callTwice, shortValue]
    rw [h4, h2]
    rw [List.getElem?_append_left (by simp)]
    simp
  · rw [callTwice, shortValue]
    rw [h4, h2]
    rw [List.getElem?_append_right (by simp)]
    simp

/-- Witness for C5 at `v1 = 3`, `v2 = 4`. -/
theorem short_new_distinct_refs_witness :
    wellConfigured testEnv ∧ (3 : Int) ≠ 4 ∧
      ∃ a1 a2, (callTwice testEnv 3 4 bInit rInit).1.1 = some a1 ∧
        (callTwice testEnv 3 4 bInit rInit).2.1 = some a2 ∧ a1 ≠ a2 ∧
        shortValue (callTwice testEnv 3 4 bInit rInit).2.2.2 a1 = some 3 ∧
        shortValue (callTwice testEnv 3 4 bInit rInit).2.2.2 a2 = some 4 :=
  ⟨⟨by decide, by decide⟩, by decide,
    short_new_distinct_refs testEnv 3 4 bInit rInit ⟨by decide, by decide⟩ (by decide)⟩

/-- C6: Constructor-resolution failure is the only failure condition
detected at this level: every call either returns the absence value
because resolution failed (allocating nothing), or returns exactly the
result of the object-construction call; no other failure mode is
distinguished by the bridge. -/
theorem short_new_failure_dichotomy (env : JNIEnv) (v : Int) (b : BState) (r : RState) :
    (¬ resolves b env ∧ (java_lang_Short_new env v b r).1 = none ∧
        (java_lang_Short_new env v b r).2.2.heap = r.heap) ∨
      (resolves b env ∧ ∃ mid r1, mid ≠ 0 ∧
        (java_lang_Short_new env v b r).1 = (NewObject env SHORT_TYPE mid v r1).1 ∧
        (java_lang_Short_new env v b r).2.2 = (NewObject env SHORT_TYPE mid v r1).2) := by
  by_cases h : resolves b env
  · right
    obtain ⟨mid, r1, hmid, hheap, hpend, hJ, hEq⟩ := short_new_success_eq env v b r h
    exact ⟨h, mid, r1, hmid, by rw [hEq], by rw [hEq]⟩
  · left
    have hb : b.newShortID = 0 := by
      by_contra hb; exact h (Or.inl hb)
    have he : env.getMethodID SHORT_TYPE "<init>" "(S)V" = 0 := by
      by_contra he; exact h (Or.inr he)
    rw [short_new_fail_eq env v b r hb he]
    exact ⟨h, rfl, rfl⟩

/-- C7: The cache is set only by a successful resolution: if a call's
resolution fails, `newShortID` stays at the uninitialized sentinel, and a
subsequent call re-attempts resolution (the lookup count increases
again). -/
theorem short_new_cache_unchanged_on_failure (env : JNIEnv) (v : Int) (b : BState)
    (r : RState) (hb : b.newShortID = 0)
    (he : env.getMethodID SHORT_TYPE "<init>" "(S)V" = 0) :
    (java_lang_Short_new env v b r).2.1.newShortID = 0 ∧
      (java_lang_Short_new env v (java_lang_Short_new env v b r).2.1
          (java_lang_Short_new env v b r).2.2).2.2.resolutions =
        (java_lang_Short_new env v b r).2.2.resolutions + 1 := by
  rw [short_new_fail_eq env v b r hb he]
  refine ⟨rfl, ?_⟩
  rw [short_new_fail_eq env v { newShortID := 0, other := b.other }
    { r with pending := true, resolutions := r.resolutions + 1 } rfl he]

/-- Witness for C7 on a concrete environment whose lookup fails. -/
theorem short_new_cache_unchanged_on_failure_witness :
    bInit.newShortID = 0 ∧ failEnv.getMethodID SHORT_TYPE "<init>" "(S)V" = 0 ∧
      ((java_lang_Short_new failEnv 5 bInit rInit).2.1.newShortID = 0 ∧
        (java_lang_Short_new failEnv 5 (java_lang_Short_new failEnv 5 bInit rInit).2.1
            (java_lang_Short_new failEnv 5 bInit rInit).2.2).2.2.resolutions =
          (java_lang_Short_new failEnv 5 bInit rInit).2.2.resolutions + 1) :=
  ⟨rfl, rfl, short_new_cache_unchanged_on_failure failEnv 5 bInit rInit rfl rfl⟩

/-- C8: For every input value and state of the environment, a call of the
bridge completes or fails synchronously: the embedded function is total
and every call yields a definite outcome — either the absence value or
some object reference. -/
theorem short_new_total (env : JNIEnv) (v : Int) (b : BState) (r : RState) :
    (java_lang_Short_new env v b r).1 = none ∨
      ∃ a, (java_lang_Short_new env v b r).1 = some a := by
  cases h : (java_lang_Short_new env v b r).1 with
  | none => exact Or.inl rfl
  | some a => exact Or.inr ⟨a, rfl⟩

/-- C9: The only process-wide state the bridge writes is the cached
constructor identifier: the abstract "all other globals" component is
unchanged by every call, and the call's entire outcome depends on the
environment handle only through the primitives queried during the call
(the handle is never stored), so two environments answering those queries
identically yield identical outcomes. -/
theorem short_new_frame (env env2 : JNIEnv) (v : Int) (b : BState) (r : RState)
    (h1 : env.getMethodID SHORT_TYPE "<init>" "(S)V" =
      env2.getMethodID SHORT_TYPE "<init>" "(S)V")
    (h2 : env.constructOk = env2.constructOk) :
    (java_lang_Short_new env v b r).2.1.other = b.other ∧
      java_lang_Short_new env v b r = java_lang_Short_new env2 v b r := by
  refine ⟨short_new_other env v b r, ?_⟩
  simp [java_lang_Short_new, JNI_METHOD, GetMethodID, NewObject, h1, h2]

/-- Witness for C9 with two distinct environments that agree on the
queried primitives. -/
theorem short_new_frame_witness :
    testEnv.getMethodID SHORT_TYPE "<init>" "(S)V" =
        altEnv.getMethodID SHORT_TYPE "<init>" "(S)V" ∧
      testEnv.constructOk = altEnv.constructOk ∧
      ((java_lang_Short_new testEnv 5 bInit rInit).2.1.other = bInit.other ∧
        java_lang_Short_new testEnv 5 bInit rInit =
          java_lang_Short_new altEnv 5 bInit rInit) :=
  ⟨by decide, by decide,
    short_new_frame testEnv altEnv 5 bInit rInit (by decide) (by decide)⟩

/-- C10: On the path where constructor resolution succeeds, the bridge
returns exactly the result of the runtime's object-construction call
without any null check, so the caller can receive the absence value even
though resolution succeeded (for example, if construction itself
fails). -/
theorem short_new_no_null_check (env : JNIEnv) (v : Int) (b : BState) (r : RState)
    (h : resolves b env) :
    ∃ mid r1, mid ≠ 0 ∧
      (java_lang_Short_new env v b r).1 = (NewObject env SHORT_TYPE mid v r1).1 ∧
      (env.constructOk = false → (java_lang_Short_new env v b r).1 = none) := by
  obtain ⟨mid, r1, hmid, hheap, hpend, hJ, hEq⟩ := short_new_success_eq env v b r h
  refine ⟨mid, r1, hmid, by rw [hEq], ?_⟩
  intro hc
  rw [hEq]
  simp [NewObject, hc]

/-- Witness for C10: resolution succeeds but construction fails, and the
caller receives the absence value. -/
theorem short_new_no_null_check_witness :
    resolves bInit oomEnv ∧ ∃ mid r1, mid ≠ 0 ∧
      (java_lang_Short_new oomEnv 5 bInit rInit).1 =
        (NewObject oomEnv SHORT_TYPE mid 5 r1).1 ∧
      (oomEnv.constructOk = false → (java_lang_Short_new oomEnv 5 bInit rInit).1 = none) :=
  ⟨Or.inr (by decide),
    short_new_no_null_check oomEnv 5 bInit rInit (Or.inr (by decide))⟩
